import Mathlib

/-!
Verification of the YouTube download core of this repository
(`youtube_api/views.py`): the selector-expression builders, the
postprocessing-plan builder, the strategy-table generator, the fallback
execution engine, and the result-selection logic.  Python functions are
shallowly embedded as Lean functions; Python dicts with a fixed key set
become structures, absent keys become `Option` fields, and the dynamic
typing relevant to `build_video_format_string` is embedded through a small
value type with explicit attribute errors.
-/

set_option maxRecDepth 4000

/-- Model of Python `str.isdigit`: true iff the string is nonempty and all
its characters are digits. -/
def isDigitString (s : String) : Bool :=
  !s.data.isEmpty && s.data.all (fun ch => ch.isDigit)

/-- Embedding of `build_video_format_string` (views.py lines 16-41).
The first `let` is the base-term selection on `video_quality`; the second
mirrors the `if video_format and video_format != "auto":` block, whose
truthiness test is modelled as `video_format ≠ ""`; the function returns the
format string with the `"/best"` fallback appended. -/
def build_video_format_string (video_quality video_format video_codec : String)
    (file_size_limit : Option Nat) : String :=
  let format_string :=
    if video_quality = "best" then "best"
    else if video_quality = "worst" then "worst"
    else if isDigitString video_quality then "best[height<=" ++ video_quality ++ "]"
    else "best"
  let format_string :=
    if video_format ≠ "" ∧ video_format ≠ "auto" then
      if isDigitString video_quality then
        "best[height<=" ++ video_quality ++ "][ext=" ++ video_format ++ "]"
      else
        "best[ext=" ++ video_format ++ "]"
    else format_string
  format_string ++ "/best"

/-- Embedding of `build_audio_format_string` (views.py lines 44-49): the
arguments are accepted but the returned expression is fixed. -/
def build_audio_format_string (audio_quality audio_format : String)
    (file_size_limit : Option Nat) : String :=
  "bestaudio/best"

/-- One postprocessor dict handed to the extractor tool (views.py lines
62-107); each constructor carries exactly the parameters the source puts in
the corresponding dict. -/
inductive Postprocessor where
  | FFmpegExtractAudio (preferredcodec : String) (preferredquality : String)
  | FFmpegVideoConvertor (preferedformat : String)
  | FFmpegSubtitlesConvertor (format : String)
  | EmbedThumbnail
  | FFmpegMetadata
deriving DecidableEq, Repr

/-- Embedding of `get_postprocessors` (views.py lines 52-109): the list is
built by successive conditional appends, in the source's order. -/
def get_postprocessors (download_type video_format audio_format audio_quality : String)
    (include_subtitles include_thumbnail include_metadata : Bool) : List Postprocessor :=
  let postprocessors : List Postprocessor := []
  let postprocessors :=
    if download_type = "audio" then
      postprocessors ++ [.FFmpegExtractAudio audio_format audio_quality]
    else if download_type = "video" then
      if video_format ∈ (["avi", "mov", "mkv", "flv"] : List String) then
        postprocessors ++ [.FFmpegVideoConvertor video_format]
      else postprocessors
    else postprocessors
  let postprocessors :=
    if include_subtitles then postprocessors ++ [.FFmpegSubtitlesConvertor "srt"]
    else postprocessors
  let postprocessors :=
    if include_thumbnail ∧ download_type = "audio" then postprocessors ++ [.EmbedThumbnail]
    else postprocessors
  let postprocessors :=
    if include_metadata then postprocessors ++ [.FFmpegMetadata] else postprocessors
  postprocessors

/-- Recognizer for the ExtractAudio step kind. -/
def isExtractAudio : Postprocessor → Bool
  | .FFmpegExtractAudio _ _ => true
  | _ => false

/-- Value of the `"youtube"` key of the `extractor_args` dict: the
`player_client` list, and the `player_skip` list when that key is present. -/
structure YoutubeExtractorArgs where
  player_client : List String
  player_skip : Option (List String)
deriving DecidableEq, Repr

/-- The yt-dlp option dict assembled by `YouTubeDownloadView.post`
(views.py lines 155-264).  Keys that the source only adds conditionally
(`cookies`, `writesubtitles`, `writeautomaticsub`, `subtitleslangs`) are
`Option` fields, `none` meaning the key is absent; `extractor_args = none`
models the empty dict `{}` used by the final strategy.  `format` and
`postprocessors` are merged into `common_opts` here because the source adds
them unconditionally right after building `common_opts`. -/
structure YdlOpts where
  outtmpl : String
  quiet : Bool
  no_warnings : Bool
  extractor_args : Option YoutubeExtractorArgs
  http_headers : List (String × String)
  cookiefile : Option String
  no_check_certificate : Bool
  ignoreerrors : Bool
  geo_bypass : Bool
  geo_bypass_country : String
  extractor_retries : Nat
  fragment_retries : Nat
  retries : Nat
  file_access_retries : Nat
  sleep_interval : Nat
  max_sleep_interval : Nat
  sleep_interval_requests : Nat
  sleep_interval_subtitles : Nat
  force_ipv4 : Bool
  socket_timeout : Nat
  extract_flat : Bool
  writethumbnail : Bool
  writeinfojson : Bool
  skip_download : Bool
  format : String
  postprocessors : List Postprocessor
  cookies : Option String
  writesubtitles : Option Bool
  writeautomaticsub : Option Bool
  subtitleslangs : Option (List String)
deriving DecidableEq, Repr

/-- Embedding of `common_opts` (views.py lines 155-203), with the `format`
and `postprocessors` keys still unset (they are supplied by the
`ydl_opts` merge, modelled in `mkYdlOpts`). -/
def common_opts (temp_dir : String) : YdlOpts where
  outtmpl := temp_dir ++ "/video.%(ext)s"
  quiet := false
  no_warnings := false
  extractor_args := some ⟨["android", "web"], some ["webpage"]⟩
  http_headers :=
    [("User-Agent", "Mozilla/5.0 (iPhone; CPU iPhone OS 16_6 like Mac OS X) AppleWebKit/605.1.15 (KHTML, like Gecko) Version/16.6 Mobile/15E148 Safari/604.1"),
     ("Accept", "*/*"),
     ("Accept-Language", "en-US,en;q=0.9"),
     ("Accept-Encoding", "gzip, deflate, br"),
     ("Origin", "https://www.youtube.com"),
     ("Referer", "https://www.youtube.com/"),
     ("X-Goog-Visitor-Id", "CgtVaVlJeUdvdFZYdyiFjYuSBg%3D%3D"),
     ("X-Youtube-Client-Name", "2"),
     ("X-Youtube-Client-Version", "2.20231205.00.00")]
  cookiefile := none
  no_check_certificate := true
  ignoreerrors := false
  geo_bypass := true
  geo_bypass_country := "US"
  extractor_retries := 10
  fragment_retries := 10
  retries := 10
  file_access_retries := 5
  sleep_interval := 3
  max_sleep_interval := 15
  sleep_interval_requests := 2
  sleep_interval_subtitles := 1
  force_ipv4 := true
  socket_timeout := 60
  extract_flat := false
  writethumbnail := false
  writeinfojson := false
  skip_download := false
  format := ""
  postprocessors := []
  cookies := none
  writesubtitles := none
  writeautomaticsub := none
  subtitleslangs := none

/-- Embedding of the `ydl_opts` assembly in `YouTubeDownloadView.post`
(views.py lines 205-264): format-string choice by `download_type`, the
postprocessor plan, the conditional `cookies` key, and the conditional
subtitle/thumbnail options, in source order. -/
def mkYdlOpts (temp_dir download_type video_quality video_format video_codec
    audio_quality audio_format : String) (file_size_limit : Option Nat)
    (include_subtitles include_thumbnail include_metadata : Bool)
    (cookies_exists : Bool) (cookies_path : String) : YdlOpts :=
  let format_string :=
    if download_type = "audio" then
      build_audio_format_string audio_quality audio_format file_size_limit
    else
      build_video_format_string video_quality video_format video_codec file_size_limit
  let pps := get_postprocessors download_type video_format audio_format audio_quality
    include_subtitles include_thumbnail include_metadata
  let opts := { common_opts temp_dir with format := format_string, postprocessors := pps }
  let opts := if cookies_exists then { opts with cookies := some cookies_path } else opts
  let opts :=
    if include_subtitles then
      { opts with writesubtitles := some true, writeautomaticsub := some true,
                  subtitleslangs := some ["en", "en-US"] }
    else opts
  let opts := if include_thumbnail then { opts with writethumbnail := true } else opts
  opts

/-- Embedding of the `strategies` list (views.py lines 266-299): strategy 1
is `ydl_opts` itself, strategies 2-5 override only `extractor_args`, and
strategy 6 overrides `format` with `"best/worst"` and `extractor_args` with
the empty dict. -/
def strategies (ydl_opts : YdlOpts) : List YdlOpts :=
  [ ydl_opts,
    { ydl_opts with extractor_args := some ⟨["ios"], none⟩ },
    { ydl_opts with extractor_args := some ⟨["android", "tv"], none⟩ },
    { ydl_opts with extractor_args := some ⟨["web"], some ["configs"]⟩ },
    { ydl_opts with extractor_args := some ⟨["mweb"], none⟩ },
    { ydl_opts with format := "best/worst", extractor_args := none } ]

/-- Outcome of one `ydl.extract_info` invocation inside the strategy loop:
either the extracted info, or the exception the attempt raised. -/
inductive Outcome (α ε : Type) where
  | success (a : α)
  | failure (e : ε)
deriving DecidableEq, Repr

/-- Recognizer for failing outcomes. -/
def Outcome.isFailure {α ε : Type} : Outcome α ε → Bool
  | .failure _ => true
  | .success _ => false

/-- Embedding of the strategy loop (views.py lines 301-320), abstracted over
the per-strategy outcome sequence: on success the loop breaks with the
result; on failure it stores `last_error` and continues unless the strategy
was the last one, in which case `last_error` is re-raised.  The returned
number counts the invocations performed; for the empty table the loop body
never runs (first component `none`). -/
def executeStrategies {α ε : Type} : List (Outcome α ε) → Option (Except ε α) × Nat
  | [] => (none, 0)
  | .success a :: _ => (some (.ok a), 1)
  | .failure e :: [] => (some (.error e), 1)
  | .failure _ :: o :: rest =>
    let r := executeStrategies (o :: rest)
    (r.1, r.2 + 1)

/-- The descending-size comparison used to model
`file_sizes.sort(key=lambda x: x[1], reverse=True)` (views.py line 338):
`a` may stay before `b` iff `a`'s byte size is at least `b`'s.  Python's
sort is stable and `List.insertionSort` with this relation is stable in the
same way, so the two agree on ties. -/
def bySizeDesc (a b : String × Nat) : Prop := b.2 ≤ a.2

instance : DecidableRel bySizeDesc := fun a b => Nat.decLe b.2 a.2

instance : IsTotal (String × Nat) bySizeDesc := ⟨fun a b => Nat.le_total b.2 a.2⟩

instance : IsTrans (String × Nat) bySizeDesc :=
  ⟨fun _ _ _ h1 h2 => Nat.le_trans h2 h1⟩

/-- Embedding of the main-file selection (views.py lines 332-341): sort the
(name, size) pairs by size descending, stably, and take the head. -/
def selectMainFile (files : List (String × Nat)) : Option (String × Nat) :=
  (List.insertionSort bySizeDesc files).head?

/-- Index (from the front) of the last `'.'` in a character list, if any. -/
def findLastDot : List Char → Option Nat
  | [] => none
  | c :: cs =>
    match findLastDot cs with
    | some i => some (i + 1)
    | none => if c = '.' then some 0 else none

/-- Model of `os.path.splitext(name)[1]` for a bare file name (no directory
separators): the extension starts at the last dot, except that leading dots
of the name never start an extension. -/
def splitextExtension (name : String) : String :=
  match findLastDot name.data with
  | none => ""
  | some i =>
    if (name.data.take i).all (fun ch => ch = '.') then ""
    else ⟨name.data.drop i⟩

/-- Model of Python `.lstrip(".")`: drop all leading dots. -/
def lstripDots (s : String) : String := ⟨s.data.dropWhile (fun ch => ch = '.')⟩

/-- Embedding of `os.path.splitext(main_file)[1].lstrip(".")` (views.py line
352). -/
def actualExtension (main_file : String) : String :=
  lstripDots (splitextExtension main_file)

/-- Embedding of the declared-container logic (views.py lines 352-356): use
the chosen file's extension, or the originally requested container when the
extension is empty (falsy). -/
def declaredContainer (main_file requested_format : String) : String :=
  let e := actualExtension main_file
  if e = "" then requested_format else e

/-- Dynamic value, for the dynamically-typed `video_quality` request field:
the request layer admits both strings and bare integers. -/
inductive PyVal where
  | str (s : String)
  | int (n : Int)
deriving DecidableEq, Repr

/-- Python error kinds that the embedded builder can raise. -/
inductive PyErr where
  | attributeError
deriving DecidableEq, Repr

/-- Python `==` between a dynamic value and a string literal: an `int` never
equals a string (and raises nothing). -/
def pyEqStr : PyVal → String → Bool
  | .str s, t => s = t
  | .int _, _ => false

/-- Python attribute call `.isdigit()` on a dynamic value: defined on
strings, raises `AttributeError` on an `int`. -/
def pyIsdigit : PyVal → Except PyErr Bool
  | .str s => .ok (isDigitString s)
  | .int _ => .error .attributeError

/-- String content of a dynamic value, for f-string interpolation. -/
def pyStr : PyVal → String
  | .str s => s
  | .int n => toString n

/-- Base-term computation of `build_video_format_string` (views.py lines
24-32) over a dynamic `video_quality`, propagating the `AttributeError`
that `.isdigit()` raises on an `int`. -/
def videoBaseTermPy (video_quality : PyVal) : Except PyErr String :=
  if pyEqStr video_quality "best" then .ok "best"
  else if pyEqStr video_quality "worst" then .ok "worst"
  else
    match pyIsdigit video_quality with
    | .error e => .error e
    | .ok true => .ok ("best[height<=" ++ pyStr video_quality ++ "]")
    | .ok false => .ok "best"

/-- Embedding of `build_video_format_string` over a dynamic `video_quality`
(views.py lines 16-41), mirroring the source's control flow: base term
first, then the container-filter block (which re-runs `.isdigit()`), then
the `"/best"` fallback. -/
def build_video_format_string_py (video_quality : PyVal)
    (video_format video_codec : String) (file_size_limit : Option Nat) :
    Except PyErr String :=
  match videoBaseTermPy video_quality with
  | .error e => .error e
  | .ok format_string =>
    if video_format ≠ "" ∧ video_format ≠ "auto" then
      match pyIsdigit video_quality with
      | .error e => .error e
      | .ok true =>
        .ok ("best[height<=" ++ pyStr video_quality ++ "][ext=" ++ video_format ++ "]"
          ++ "/best")
      | .ok false => .ok ("best[ext=" ++ video_format ++ "]" ++ "/best")
    else .ok (format_string ++ "/best")

/-- Step 1 of the spec's video algorithm, stated from the spec's words for
comparison with the code: the base term is `"best"` for "best"/unrecognized
quality, `"worst"` for "worst", and a height-bounded best term for numeric
quality. -/
def specStep1BaseTerm (q : String) : String :=
  if q = "best" then "best"
  else if q = "worst" then "worst"
  else if isDigitString q then "best[height<=" ++ q ++ "]"
  else "best"

/-- A concrete base configuration used by witnesses: a video request for
1080p mp4 with default flags. -/
def exampleBase : YdlOpts :=
  mkYdlOpts "/tmp/dl" "video" "1080" "mp4" "auto" "320" "mp3" none false false true false ""

/-- Helper: prepending a failing outcome to a nonempty tail adds one
invocation and leaves the final result unchanged. -/
theorem executeStrategies_failure_cons {α ε : Type} (e : ε) (l : List (Outcome α ε))
    (h : l ≠ []) :
    executeStrategies (Outcome.failure e :: l)
      = ((executeStrategies l).1, (executeStrategies l).2 + 1) := by
  cases l with
  | nil => exact absurd rfl h
  | cons o t => rfl

/-- C1: the fallback engine tries the strategies strictly in table order:
when the strategy after `pre` failing attempts is the first to succeed, the
engine performs exactly `pre.length + 1` invocations and returns that
success, never invoking a later strategy; when all strategies fail, it
performs one invocation per strategy and surfaces exactly the last cause. -/
theorem fallback_engine_first_success_last_cause :
    (∀ (α ε : Type) (pre rest : List (Outcome α ε)) (a : α),
      (∀ o ∈ pre, o.isFailure = true) →
      executeStrategies (pre ++ Outcome.success a :: rest)
        = (some (Except.ok a), pre.length + 1))
    ∧ (∀ (α ε : Type) (pre : List (Outcome α ε)) (e : ε),
      (∀ o ∈ pre, o.isFailure = true) →
      executeStrategies (pre ++ [Outcome.failure e])
        = (some (Except.error e), pre.length + 1)) := by
  constructor
  · intro α ε pre rest a hpre
    induction pre with
    | nil => rfl
    | cons o t ih =>
      have ho : o.isFailure = true := hpre o (List.mem_cons_self o t)
      obtain ⟨e0, rfl⟩ : ∃ e0, o = Outcome.failure e0 := by
        cases o with
        | success a0 => exact absurd ho (by simp [Outcome.isFailure])
        | failure e0 => exact ⟨e0, rfl⟩
      rw [List.cons_append, executeStrategies_failure_cons _ _ (by simp),
        ih (fun o ho2 => hpre o (List.mem_cons_of_mem _ ho2))]
      simp [List.length_cons]
  · intro α ε pre e hpre
    induction pre with
    | nil => rfl
    | cons o t ih =>
      have ho : o.isFailure = true := hpre o (List.mem_cons_self o t)
      obtain ⟨e0, rfl⟩ : ∃ e0, o = Outcome.failure e0 := by
        cases o with
        | success a0 => exact absurd ho (by simp [Outcome.isFailure])
        | failure e0 => exact ⟨e0, rfl⟩
      rw [List.cons_append, executeStrategies_failure_cons _ _ (by simp),
        ih (fun o ho2 => hpre o (List.mem_cons_of_mem _ ho2))]
      simp [List.length_cons]

/-- Witness for C1: two failures followed by a success yield that success
after exactly 3 invocations; three failures yield the third cause after
exactly 3 invocations. -/
theorem fallback_engine_first_success_last_cause_witness :
    executeStrategies (([Outcome.failure 0, Outcome.failure 1] : List (Outcome Nat Nat))
        ++ Outcome.success 7 :: [Outcome.failure 2])
      = (some (Except.ok 7), 2 + 1)
    ∧ executeStrategies (([Outcome.failure 0, Outcome.failure 1] : List (Outcome Nat Nat))
        ++ [Outcome.failure 5])
      = (some (Except.error 5), 2 + 1) :=
  ⟨fallback_engine_first_success_last_cause.1 Nat Nat _ _ 7 (by decide),
   fallback_engine_first_success_last_cause.2 Nat Nat _ 5 (by decide)⟩

/-- C5: `build_video_format_string` never reads the `video_codec` and
`file_size_limit` arguments: calls agreeing on quality and container return
identical selector expressions. -/
theorem video_selector_ignores_codec_and_sizecap :
    ∀ (q c cd1 cd2 : String) (l1 l2 : Option Nat),
      build_video_format_string q c cd1 l1 = build_video_format_string q c cd2 l2 :=
  fun _ _ _ _ _ _ => rfl

/-- C6: the audio selector is the fixed `"bestaudio/best"` expression for
all arguments, and the audio postprocessing plan contains exactly one
ExtractAudio step, carrying the requested audio container and quality. -/
theorem audio_selector_fixed_and_extract_audio_unique :
    ∀ (vf af aq : String) (l : Option Nat) (subs thumb meta : Bool),
      build_audio_format_string aq af l = "bestaudio/best"
      ∧ (get_postprocessors "audio" vf af aq subs thumb meta).filter isExtractAudio
          = [Postprocessor.FFmpegExtractAudio af aq] := by
  intro vf af aq l subs thumb meta
  refine ⟨rfl, ?_⟩
  cases subs <;> cases thumb <;> cases meta <;>
    simp [get_postprocessors, isExtractAudio, List.filter]

/-- C7: for quality "1080", container "mp4", codec "auto" and default
flags, the selector is the height-bounded term refined by the mp4 container
filter followed by the universal `"/best"` fallback, mp4 is outside the
fixed remux set, and the postprocessing plan's only step is metadata
embedding. -/
theorem scenario_video_1080_mp4 :
    build_video_format_string "1080" "mp4" "auto" none
      = "best[height<=1080]" ++ "[ext=mp4]" ++ "/best"
    ∧ "mp4" ∉ (["avi", "mov", "mkv", "flv"] : List String)
    ∧ ∀ af aq : String, get_postprocessors "video" "mp4" af aq false false true
        = [Postprocessor.FFmpegMetadata] := by
  refine ⟨by decide, by decide, fun af aq => rfl⟩

/-- C9: on string-typed qualities the dynamic video builder is total and
always returns an expression ending in the `"/best"` fallback (the empty
and unrecognized strings fall back to the `"best"` base term), while a bare
integer quality raises `AttributeError` at the string-only `.isdigit()`
test instead of producing a height-bounded term. -/
theorem video_selector_total_on_strings_fails_on_int :
    (∀ (q c cd : String) (l : Option Nat), ∃ e,
      build_video_format_string_py (.str q) c cd l = .ok e ∧ ∃ p, e = p ++ "/best")
    ∧ (∀ (cd : String) (l : Option Nat),
      build_video_format_string_py (.str "") "auto" cd l = .ok ("best" ++ "/best"))
    ∧ (∀ (n : Int) (c cd : String) (l : Option Nat),
      build_video_format_string_py (.int n) c cd l = .error .attributeError) := by
  refine ⟨?_, fun cd l => rfl, fun n c cd l => rfl⟩
  intro q c cd l
  have hbase : ∃ b, videoBaseTermPy (.str q) = .ok b := by
    unfold videoBaseTermPy
    split
    · exact ⟨"best", rfl⟩
    · split
      · exact ⟨"worst", rfl⟩
      · cases hq : isDigitString q <;> simp [pyIsdigit, hq]
  obtain ⟨b, hb⟩ := hbase
  unfold build_video_format_string_py
  simp only [hb]
  by_cases hc : c ≠ "" ∧ c ≠ "auto"
  · rw [if_pos hc]
    cases hq : isDigitString q <;> simp [pyIsdigit, hq] <;> exact ⟨_, rfl⟩
  · rw [if_neg hc]
    exact ⟨b ++ "/best", rfl, b, rfl⟩

/-- Helper: a video selector expression (which always ends in the `"/best"`
alternative) is never the permissive `"best/worst"` fallback. -/
theorem append_slash_best_ne (s : String) : s ++ "/best" ≠ "best/worst" := by
  intro h
  have hs : ("/best" : String).data <:+ ("best/worst" : String).data := by
    rw [← h, String.data_append]
    exact List.suffix_append s.data _
  exact absurd hs (by decide)

/-- Helper: `build_video_format_string` always produces some term followed
by the `"/best"` alternative. -/
theorem build_video_eq_append (q c cd : String) (l : Option Nat) :
    ∃ s, build_video_format_string q c cd l = s ++ "/best" :=
  ⟨_, rfl⟩

/-- C4 counterexample: for quality "worst" and container "mp4" the code
discards the step-1 base term `"worst"` and produces `"best[ext=mp4]/best"`,
not the container-refined base term the claim describes. -/
theorem video_container_refinement_counterexample :
    build_video_format_string "worst" "mp4" "auto" none = "best[ext=mp4]/best"
    ∧ specStep1BaseTerm "worst" ++ "[ext=" ++ "mp4" ++ "]" ++ "/best" = "worst[ext=mp4]/best"
    ∧ build_video_format_string "worst" "mp4" "auto" none
        ≠ specStep1BaseTerm "worst" ++ "[ext=" ++ "mp4" ++ "]" ++ "/best" :=
  ⟨by decide, by decide, by decide⟩

/-- C4 (amended): for every quality and every non-empty container other
than "auto", the builder applies the container filter to `"best"` — or, for
numeric quality, to the height-bounded best term, so height bound and
container filter compose — with the step-1 base term `"worst"` replaced by
`"best"` rather than refined; the `"/best"` fallback follows. -/
theorem video_container_refinement_amended :
    ∀ (q c cd : String) (l : Option Nat), c ≠ "" → c ≠ "auto" →
      build_video_format_string q c cd l
        = (if isDigitString q then "best[height<=" ++ q ++ "]" else "best")
            ++ "[ext=" ++ c ++ "]" ++ "/best" := by
  intro q c cd l h1 h2
  by_cases hd : isDigitString q
  · simp only [build_video_format_string, hd, if_true, if_pos (And.intro h1 h2)]
    rw [String.append_assoc ("best[height<=" ++ q) "]" "[ext="]
    rfl
  · simp only [build_video_format_string, hd, if_false, if_pos (And.intro h1 h2)]
    rfl

/-- Witness for C4's amended theorem at quality "720", container "webm". -/
theorem video_container_refinement_amended_witness :
    build_video_format_string "720" "webm" "auto" none
      = (if isDigitString "720" then "best[height<=" ++ "720" ++ "]" else "best")
          ++ "[ext=" ++ "webm" ++ "]" ++ "/best" :=
  video_container_refinement_amended "720" "webm" "auto" none (by decide) (by decide)

/-- C2: for every base configuration whose selector came from one of the
two builders, the strategy table has exactly 6 variants, the last variant's
selector is the unconditional `"best/worst"` fallback, and that selector
differs from the selector of each of the 5 preceding variants. -/
theorem strategy_table_six_variants_last_permissive :
    ∀ b : YdlOpts,
      ((∃ aq af l, b.format = build_audio_format_string aq af l)
        ∨ (∃ q c cd l, b.format = build_video_format_string q c cd l)) →
      (strategies b).length = 6
      ∧ ∃ v, (strategies b)[5]? = some v ∧ v.format = "best/worst"
        ∧ ∀ u ∈ (strategies b).take 5, u.format ≠ v.format := by
  intro b hb
  have hbf : b.format ≠ "best/worst" := by
    rcases hb with ⟨aq, af, l, h⟩ | ⟨q, c, cd, l, h⟩
    · have ha : build_audio_format_string aq af l = "bestaudio/best" := rfl
      rw [h, ha]; decide
    · obtain ⟨s, hs⟩ := build_video_eq_append q c cd l
      rw [h, hs]
      exact append_slash_best_ne s
  refine ⟨rfl, ⟨_, rfl, rfl, ?_⟩⟩
  intro u hu
  have hu2 : u.format = b.format := by
    simp [strategies] at hu
    rcases hu with rfl | rfl | rfl | rfl | rfl <;> rfl
  rw [hu2]
  exact hbf

/-- Witness for C2 at a concrete 1080p/mp4 video base configuration. -/
theorem strategy_table_six_variants_witness :
    (strategies exampleBase).length = 6
    ∧ ∃ v, (strategies exampleBase)[5]? = some v ∧ v.format = "best/worst"
      ∧ ∀ u ∈ (strategies exampleBase).take 5, u.format ≠ v.format :=
  strategy_table_six_variants_last_permissive exampleBase
    (Or.inr ⟨"1080", "mp4", "auto", none, by decide⟩)

/-- C3: each of the table's network-override variants (variants 2 through
5, i.e. the four entries after the head) keeps the selector expression and
the postprocessing plan of the base configuration, and agrees with the base
on every field other than `extractor_args`. -/
theorem strategy_table_network_variants_frame :
    ∀ (b : YdlOpts), ∀ v ∈ ((strategies b).drop 1).take 4,
      v.format = b.format ∧ v.postprocessors = b.postprocessors
      ∧ v = { b with extractor_args := v.extractor_args } := by
  intro b v hv
  simp [strategies] at hv
  rcases hv with rfl | rfl | rfl | rfl <;> exact ⟨rfl, rfl, rfl⟩

/-- Witness for C3 at the iOS-client variant of a concrete base. -/
theorem strategy_table_network_variants_frame_witness :
    ({ exampleBase with extractor_args := some ⟨["ios"], none⟩ } : YdlOpts).format
        = exampleBase.format
    ∧ ({ exampleBase with extractor_args := some ⟨["ios"], none⟩ } : YdlOpts).postprocessors
        = exampleBase.postprocessors
    ∧ ({ exampleBase with extractor_args := some ⟨["ios"], none⟩ } : YdlOpts)
        = { exampleBase with
              extractor_args :=
                ({ exampleBase with
                     extractor_args := some ⟨["ios"], none⟩ } : YdlOpts).extractor_args } :=
  strategy_table_network_variants_frame exampleBase _ (List.mem_cons_self _ _)

/-- C10: the final, maximally permissive variant overrides only the
selector expression (to `"best/worst"`) and the extractor arguments (to the
empty dict); every other field of the base configuration — in particular
the postprocessing plan and the output path template — is inherited
unchanged. -/
theorem last_strategy_overrides_only_format_and_network :
    ∀ b : YdlOpts, ∃ v, (strategies b)[5]? = some v
      ∧ v.format = "best/worst" ∧ v.extractor_args = none
      ∧ v.postprocessors = b.postprocessors ∧ v.outtmpl = b.outtmpl
      ∧ v = { b with format := v.format, extractor_args := v.extractor_args } :=
  fun b => ⟨_, rfl, rfl, rfl, rfl, rfl, rfl⟩

/-- C8: the result selection chooses a produced file of maximal byte size
(in particular `"a.mp4"` at 500 bytes over `"b.jpg"` at 20 bytes, and a
single produced file is always chosen), and the declared output container
is the chosen file's extension, with the originally requested container
used exactly in the branch where no extension can be extracted. -/
theorem result_selection_largest_and_extension :
    (∀ (files : List (String × Nat)) (f : String × Nat),
      selectMainFile files = some f → f ∈ files ∧ ∀ g ∈ files, g.2 ≤ f.2)
    ∧ selectMainFile [("a.mp4", 500), ("b.jpg", 20)] = some ("a.mp4", 500)
    ∧ (∀ x : String × Nat, selectMainFile [x] = some x)
    ∧ (∀ name req : String,
        (actualExtension name = "" → declaredContainer name req = req)
        ∧ (actualExtension name ≠ "" → declaredContainer name req = actualExtension name))
    ∧ declaredContainer "video.mp4" "webm" = "mp4"
    ∧ declaredContainer "video" "webm" = "webm" := by
  refine ⟨?_, by decide, fun x => rfl, ?_, by decide, by decide⟩
  · intro files f h
    unfold selectMainFile at h
    cases hs : List.insertionSort bySizeDesc files with
    | nil => rw [hs] at h; exact absurd h (by simp)
    | cons a t =>
      rw [hs] at h
      simp only [List.head?_cons, Option.some_inj] at h
      subst h
      have hperm := List.perm_insertionSort bySizeDesc files
      constructor
      · have hm : a ∈ List.insertionSort bySizeDesc files := by
          rw [hs]; exact List.mem_cons_self _ _
        exact hperm.mem_iff.mp hm
      · intro g hg
        have hgs : g ∈ List.insertionSort bySizeDesc files := hperm.mem_iff.mpr hg
        rw [hs] at hgs
        have hsorted := List.sorted_insertionSort bySizeDesc files
        rw [hs] at hsorted
        rcases List.mem_cons.mp hgs with rfl | hgt
        · exact Nat.le_refl _
        · exact List.rel_of_sorted_cons hsorted g hgt
  · intro name req
    constructor
    · intro h; simp [declaredContainer, h]
    · intro h; simp [declaredContainer, h]

/-- Witness for C8: in the spec's two-file scenario the chosen file is a
member of maximal size. -/
theorem result_selection_witness :
    ("a.mp4", 500) ∈ ([("a.mp4", 500), ("b.jpg", 20)] : List (String × Nat))
    ∧ ∀ g ∈ ([("a.mp4", 500), ("b.jpg", 20)] : List (String × Nat)), g.2 ≤ 500 :=
  result_selection_largest_and_extension.1 _ ("a.mp4", 500) (by decide)
